import Mathlib

-- Verification of the authorization & credential-lifecycle engine of the
-- open-crosspost-proxy-service repository, as a shallow embedding in Lean 4.
-- Key-value collaborators are modelled as functions from keys to optional
-- values; stateful TypeScript methods become explicit state-passing
-- functions; thrown errors become Except values.

namespace Crosspost

-- ### Key-value store model
-- Deno KV / PrefixedKvStore collaborators, modelled as partial maps.

def Store (κ α : Type) : Type := κ → Option α

def Store.set {κ α : Type} [DecidableEq κ] (s : Store κ α) (k : κ) (v : α) : Store κ α :=
  fun k2 => if k2 = k then some v else s k2

def Store.del {κ α : Type} [DecidableEq κ] (s : Store κ α) (k : κ) : Store κ α :=
  fun k2 => if k2 = k then none else s k2

-- A KV read that may fail (storage error), for the fail-closed claims.

inductive KvRead (α : Type) : Type
  | ok (v : Option α)
  | err (message : String)
deriving DecidableEq

-- ### Error codes and status mapping

inductive ApiErrorCode : Type
  | UNAUTHORIZED
  | FORBIDDEN
  | NOT_FOUND
  | RATE_LIMITED
  | PLATFORM_ERROR
  | INTERNAL_ERROR
  | UNKNOWN_ERROR
deriving DecidableEq, Repr

/-- Modelled from the spec: the total error-code-to-HTTP-status mapping of
`getStatusCodeForError` (`src/utils/error-handling.utils.ts` is not in the
source tree; the spec fixes `Unauthorized` to the 401 class, `RateLimited`
to the 429 class, `ReauthRequired` to the 401 class and non-recoverable
`PlatformError` to the 5xx class). -/
def getStatusCodeForError : ApiErrorCode → Nat
  | ApiErrorCode.UNAUTHORIZED => 401
  | ApiErrorCode.FORBIDDEN => 403
  | ApiErrorCode.NOT_FOUND => 404
  | ApiErrorCode.RATE_LIMITED => 429
  | ApiErrorCode.PLATFORM_ERROR => 500
  | ApiErrorCode.INTERNAL_ERROR => 500
  | ApiErrorCode.UNKNOWN_ERROR => 500

-- ### Multi-target orchestration
-- BasePostController.processMultipleTargets / createMultiStatusResponse
-- (src/controllers/post/base.controller.ts).

structure Target : Type where
  platform : String
  userId : String
deriving DecidableEq, Repr

-- createErrorDetail(message, errorCode, recoverable, platform, userId, details?).
structure ErrorDetail : Type where
  message : String
  errorCode : ApiErrorCode
  recoverable : Bool
  platform : String
  userId : String
  details : Option String
deriving DecidableEq, Repr

-- Outcome of the injected per-target processor callback: a success value,
-- a thrown PlatformError (classified code/recoverability/details), or a
-- thrown plain Error (message plus optional stack).
inductive ProcOutcome (σ : Type) : Type
  | success (d : σ)
  | throwPlatformError (message : String) (code : ApiErrorCode) (recoverable : Bool)
      (details : Option String)
  | throwError (message : String) (stack : Option String)
deriving DecidableEq

-- The collaborators consulted per target: verifyAccess delegates to
-- AuthService.hasAccess, checkRateLims to RateLimitService.canPerformAction,
-- and the processor is the injected callback (it also receives the index).
structure BatchEnv (σ : Type) : Type where
  hasAccess : Target → Bool
  canPerform : Target → Bool
  processor : Target → Nat → ProcOutcome σ

-- verifyAccess failure detail (base.controller.ts lines 67-79).
def accessErrorDetail (t : Target) : ErrorDetail :=
  { message := "No connected " ++ t.platform ++ " account found for user ID " ++ t.userId
    errorCode := ApiErrorCode.UNAUTHORIZED
    recoverable := true
    platform := t.platform
    userId := t.userId
    details := none }

-- checkRateLims failure detail (base.controller.ts lines 99-105).
def rateLimitErrorDetail (t : Target) : ErrorDetail :=
  { message := "Rate limit reached for " ++ t.platform ++ ". Please try again later."
    errorCode := ApiErrorCode.RATE_LIMITED
    recoverable := true
    platform := t.platform
    userId := t.userId
    details := none }

-- The catch block of the per-target loop (base.controller.ts lines 158-170):
-- a PlatformError keeps its code/recoverable/details, any other error is
-- classified PLATFORM_ERROR and non-recoverable.
def caughtErrorDetail (t : Target) : ProcOutcome σ → ErrorDetail
  | ProcOutcome.success _ =>
      { message := "", errorCode := ApiErrorCode.UNKNOWN_ERROR, recoverable := false,
        platform := t.platform, userId := t.userId, details := none }
  | ProcOutcome.throwPlatformError m c r d =>
      { message := m, errorCode := c, recoverable := r,
        platform := t.platform, userId := t.userId, details := d }
  | ProcOutcome.throwError m st =>
      { message := m, errorCode := ApiErrorCode.PLATFORM_ERROR, recoverable := false,
        platform := t.platform, userId := t.userId, details := st }

-- One iteration of the loop body for target t at index i: access check,
-- then rate check, then the processor call guarded by try/catch.
def processTarget {σ : Type} (env : BatchEnv σ) (t : Target) (i : Nat) : σ ⊕ ErrorDetail :=
  if env.hasAccess t = false then Sum.inr (accessErrorDetail t)
  else if env.canPerform t = false then Sum.inr (rateLimitErrorDetail t)
  else
    match env.processor t i with
    | ProcOutcome.success d => Sum.inl d
    | o => Sum.inr (caughtErrorDetail t o)

-- The sequential for-loop, pushing into successResults / errorDetails in
-- input order and continuing after every failure.
def processLoop {σ : Type} (env : BatchEnv σ) : Nat → List Target → List σ × List ErrorDetail
  | _, [] => ([], [])
  | i, t :: ts =>
      let rest := processLoop env (i + 1) ts
      match processTarget env t i with
      | Sum.inl s => (s :: rest.1, rest.2)
      | Sum.inr e => (rest.1, e :: rest.2)

def processMultipleTargets {σ : Type} (env : BatchEnv σ) (targets : List Target) :
    List σ × List ErrorDetail :=
  processLoop env 0 targets

-- createMultiStatusResponse status-code selection
-- (base.controller.ts lines 195-205): 200 by default, the first error's
-- mapped code on complete failure, 207 on partial success.
def multiStatusCode {σ : Type} (successResults : List σ) (errorDetails : List ErrorDetail) :
    Nat :=
  match successResults, errorDetails with
  | [], e :: _ => getStatusCodeForError e.errorCode
  | _ :: _, _ :: _ => 207
  | _, [] => 200

-- ### NearAuthService state
-- src/infrastructure/security/near-auth-service.ts.  The service owns two
-- collaborators: a TokenStorage of credential bundles keyed by
-- (userId, platform), and a PrefixedKvStore holding authorization records
-- (key [signerId]), token references (key ['token', signerId, platform,
-- userId]) and the connected-accounts index (key ['index', signerId]).

structure AuthRecord : Type where
  authorized : Bool
  timestamp : String
deriving DecidableEq, Repr

structure Account : Type where
  platform : String
  userId : String
deriving DecidableEq, Repr

-- The token reference stored under ['token', signerId, platform, userId]:
-- { userId, platform, linkedAt } (near-auth-service.ts lines 389-393).
structure TokenRef : Type where
  userId : String
  platform : String
  linkedAt : String
deriving DecidableEq, Repr

-- AuthToken (infrastructure/storage/auth-token-storage.ts, seen through its
-- uses): refreshToken is a string with the empty string for a missing token
-- (TwitterTokens sets refreshToken || ''), expiresAt an optional epoch-ms
-- timestamp.
structure AuthToken : Type where
  accessToken : String
  refreshToken : String
  expiresAt : Option Nat
  scope : List String
  tokenType : String
deriving DecidableEq, Repr

structure NAState : Type where
  tokenStorage : Store (String × String) AuthToken
  authRecords : Store String AuthRecord
  tokenRefs : Store (String × String × String) TokenRef
  index : Store String (List Account)

def emptyNAState : NAState :=
  { tokenStorage := fun _ => none
    authRecords := fun _ => none
    tokenRefs := fun _ => none
    index := fun _ => none }

-- listConnectedAccounts (near-auth-service.ts lines 290-312): reads the
-- index and maps each entry to its (platform, userId) pair.
def listConnectedAccounts (s : NAState) (signerId : String) : List Account :=
  ((s.index signerId).getD []).map
    (fun account => { platform := account.platform, userId := account.userId })

-- addToConnectedAccountsIndex (lines 320-343): appends the pair to the
-- signer's index unless an equal pair is already present.
def addToConnectedAccountsIndex (s : NAState) (signerId platform userId : String) : NAState :=
  let accounts := (s.index signerId).getD []
  let alreadyLinked :=
    accounts.any (fun acc => acc.platform == platform && acc.userId == userId)
  if alreadyLinked then s
  else { s with index := s.index.set signerId (accounts ++ [⟨platform, userId⟩]) }

-- removeFromConnectedAccountsIndex (lines 351-378): filters the pair out of
-- the signer's index when an index entry exists.
def removeFromConnectedAccountsIndex (s : NAState) (signerId platform userId : String) :
    NAState :=
  match s.index signerId with
  | none => s
  | some accounts =>
      { s with
        index := s.index.set signerId
          (accounts.filter (fun acc => !(acc.platform == platform && acc.userId == userId))) }

-- storeToken (lines 227-243): writes the token reference and updates the
-- connected-accounts index.
def storeToken (s : NAState) (signerId platform userId : String) (tok : TokenRef) : NAState :=
  addToConnectedAccountsIndex
    { s with tokenRefs := s.tokenRefs.set (signerId, platform, userId) tok }
    signerId platform userId

-- getToken (lines 252-264).
def getToken (s : NAState) (signerId platform userId : String) : Option TokenRef :=
  s.tokenRefs (signerId, platform, userId)

-- deleteToken (lines 272-283): removes the token reference and the index
-- entry.
def deleteToken (s : NAState) (signerId platform userId : String) : NAState :=
  removeFromConnectedAccountsIndex
    { s with tokenRefs := s.tokenRefs.del (signerId, platform, userId) }
    signerId platform userId

-- linkAccount (lines 386-401): stores a token reference
-- { userId, platform, linkedAt }.
def linkAccount (s : NAState) (signerId platform userId linkedAt : String) : NAState :=
  storeToken s signerId platform userId
    { userId := userId, platform := platform, linkedAt := linkedAt }

-- unlinkAccount (lines 409-420).
def unlinkAccount (s : NAState) (signerId platform userId : String) : NAState :=
  deleteToken s signerId platform userId

-- hasAccess (lines 429-440): true when a token reference exists.
def hasAccess (s : NAState) (signerId platform userId : String) : Bool :=
  (getToken s signerId platform userId).isSome

-- authorizeNearAccount (lines 447-464): stores {authorized: true, timestamp}.
def authorizeNearAccount (s : NAState) (signerId timestamp : String) : NAState :=
  { s with authRecords :=
      s.authRecords.set signerId { authorized := true, timestamp := timestamp } }

-- isNearAccountAuthorized (lines 471-481) on the outcome of a KV read:
-- result?.authorized === true, and false on a storage error (fail closed).
def isNearAccountAuthorizedRead (r : KvRead AuthRecord) : Bool :=
  match r with
  | KvRead.ok (some a) => a.authorized == true
  | KvRead.ok none => false
  | KvRead.err _ => false

def isNearAccountAuthorized (s : NAState) (signerId : String) : Bool :=
  isNearAccountAuthorizedRead (KvRead.ok (s.authRecords signerId))

-- unauthorizeNearAccount (lines 488-516): returns success untouched when no
-- record exists, otherwise deletes the record.
def unauthorizeNearAccount (s : NAState) (signerId : String) : NAState :=
  match s.authRecords signerId with
  | none => s
  | some _ => { s with authRecords := s.authRecords.del signerId }

-- getNearAuthorizationStatus (lines 526-542): -1 when not authorized,
-- otherwise the number of connected accounts.
def getNearAuthorizationStatus (s : NAState) (signerId : String) : Int :=
  if isNearAccountAuthorized s signerId = false then -1
  else (listConnectedAccounts s signerId).length

-- ### Sequences of link/unlink operations (for the no-duplicates law)

inductive LinkOp : Type
  | link (signerId platform userId linkedAt : String)
  | unlink (signerId platform userId : String)

def applyLinkOp (s : NAState) : LinkOp → NAState
  | LinkOp.link signerId platform userId linkedAt =>
      linkAccount s signerId platform userId linkedAt
  | LinkOp.unlink signerId platform userId => unlinkAccount s signerId platform userId

def applyLinkOps (s : NAState) : List LinkOp → NAState
  | [] => s
  | op :: ops => applyLinkOps (applyLinkOp s op) ops

-- Invariant: no principal's index list carries two entries with the same
-- (platform, userId) pair.  Account equality is exactly pair equality.
def NoDupLinks (s : NAState) : Prop :=
  ∀ signerId l, s.index signerId = some l → l.Nodup

-- ### Credential lifecycle

-- Errors surfaced by the auth/token layer: ApiError(message, code, status),
-- PlatformError(message, platform, code, recoverable), or a plain Error.
inductive AuthErr : Type
  | apiError (message : String) (code : ApiErrorCode) (status : Nat)
  | platformError (message : String) (platform : String) (code : ApiErrorCode)
      (recoverable : Bool)
  | generic (message : String)
deriving DecidableEq, Repr

-- How the multi-target catch block (base.controller.ts lines 158-170)
-- classifies a thrown error: a PlatformError keeps its code and
-- recoverability, everything else becomes PLATFORM_ERROR / non-recoverable.
def classifyCaughtError : AuthErr → ApiErrorCode × Bool
  | AuthErr.platformError _ _ c r => (c, r)
  | _ => (ApiErrorCode.PLATFORM_ERROR, false)

-- The JavaScript truthiness test `tokens.expiresAt && tokens.expiresAt <
-- Date.now()` of near-auth-service.ts line 113: an absent expiresAt and the
-- number 0 are both falsy.
def expiresTruthyLt (t : AuthToken) (now : Nat) : Bool :=
  match t.expiresAt with
  | none => false
  | some e => decide (0 < e) && decide (e < now)

-- TokenStorage.saveTokens / deleteTokens as seen by twitter-auth.ts: plain
-- writes to the credential store keyed by (userId, platform).
def tsSaveTokens (s : NAState) (userId platform : String) (t : AuthToken) : NAState :=
  { s with tokenStorage := s.tokenStorage.set (userId, platform) t }

def tsDeleteTokens (s : NAState) (userId platform : String) : NAState :=
  { s with tokenStorage := s.tokenStorage.del (userId, platform) }

-- NearAuthService.deleteTokens (near-auth-service.ts lines 179-201): delete
-- from TokenStorage, then drop the token reference and index entry of every
-- matching linked account of the index at key userId.
def nasDeleteTokens (s : NAState) (userId platform : String) : NAState :=
  let s1 := tsDeleteTokens s userId platform
  (listConnectedAccounts s1 userId).foldl
    (fun st account =>
      if account.platform == platform && account.userId == userId then
        deleteToken st account.userId platform userId
      else st)
    s1

-- NearAuthService.getTokens (near-auth-service.ts lines 107-136): fetch the
-- bundle; when the expiry test fires, either hand the expired bundle to the
-- platform refresh path (a refresh token is present) or delete the bundle
-- and throw ApiError UNAUTHORIZED 401.
def nasGetTokens (s : NAState) (userId platform : String) (now : Nat) :
    Except AuthErr AuthToken × NAState :=
  match s.tokenStorage (userId, platform) with
  | none => (Except.error (AuthErr.generic "Tokens not found"), s)
  | some tokens =>
      if expiresTruthyLt tokens now then
        if tokens.refreshToken != "" then (Except.ok tokens, s)
        else
          (Except.error (AuthErr.apiError "Tokens expired and no refresh token available"
              ApiErrorCode.UNAUTHORIZED 401),
            nasDeleteTokens s userId platform)
      else (Except.ok tokens, s)

-- ### TwitterAuth.refreshToken (twitter-auth.ts lines 238-288)

-- The shape of an error thrown by the platform refresh call, as inspected by
-- the classifier: error.data?.error, error.status, error.code.
structure RefreshError : Type where
  message : String
  dataError : Option String
  status : Option Nat
  code : Option String
deriving DecidableEq, Repr

inductive RefreshResult : Type
  | ok (accessToken : String) (newRefreshToken : String) (expiresIn : Nat)
  | err (e : RefreshError)
deriving DecidableEq, Repr

-- The invalid-grant classification of twitter-auth.ts lines 274-277.
def isInvalidGrantError (e : RefreshError) : Bool :=
  e.dataError == some "invalid_request" || (e.status == some 400 && e.code == some "invalid_grant")

-- The new bundle built on a successful refresh (twitter-auth.ts lines
-- 260-266): the old refresh token is kept when the platform returns none.
def mkRefreshedToken (old : AuthToken) (accessToken newRefreshToken : String)
    (expiresIn : Nat) (now : Nat) : AuthToken :=
  { accessToken := accessToken
    refreshToken := if newRefreshToken == "" then old.refreshToken else newRefreshToken
    expiresAt := some (now + expiresIn * 1000)
    scope := old.scope
    tokenType := "oauth2" }

-- TwitterAuth.refreshToken.  The refresh callback is the injected
-- twitterClient.refreshOAuth2Token.  Every failure path runs through the
-- outer catch, which replaces the error with a plain
-- Error('Failed to refresh token'); on a classified invalid-grant error the
-- bundle has already been deleted from TokenStorage, on any other error the
-- store is untouched.
def twitterRefreshToken (s : NAState) (refreshFn : String → RefreshResult)
    (userId : String) (now : Nat) : Except AuthErr AuthToken × NAState :=
  match s.tokenStorage (userId, "twitter") with
  | none => (Except.error (AuthErr.generic "Failed to refresh token"), s)
  | some tokens =>
      if tokens.refreshToken == "" then
        (Except.error (AuthErr.generic "Failed to refresh token"), s)
      else
        match refreshFn tokens.refreshToken with
        | RefreshResult.ok accessToken newRefreshToken expiresIn =>
            let newTokens := mkRefreshedToken tokens accessToken newRefreshToken expiresIn now
            (Except.ok newTokens, tsSaveTokens s userId "twitter" newTokens)
        | RefreshResult.err e =>
            if isInvalidGrantError e then
              (Except.error (AuthErr.generic "Failed to refresh token"),
                tsDeleteTokens s userId "twitter")
            else (Except.error (AuthErr.generic "Failed to refresh token"), s)

-- Expiry in the spec's sense: an expiresAt timestamp that has passed.
def bundleExpired (t : AuthToken) (now : Nat) : Bool :=
  match t.expiresAt with
  | none => false
  | some e => decide (e < now)

/-- Modelled from the spec: `getValidCredential` of the
CredentialLifecycleManager (the composing TokenManager is not in the source
tree).  It composes `NearAuthService.getTokens` with the platform refresh
callback: an unexpired bundle is returned as-is, an expired bundle carrying
a refresh token goes through `TwitterAuth.refreshToken`. -/
def getValidCredential (s : NAState) (refreshFn : String → RefreshResult)
    (userId : String) (now : Nat) : Except AuthErr AuthToken × NAState :=
  match nasGetTokens s userId "twitter" now with
  | (Except.error e, s2) => (Except.error e, s2)
  | (Except.ok t, s2) =>
      if bundleExpired t now && t.refreshToken != "" then
        twitterRefreshToken s2 refreshFn userId now
      else (Except.ok t, s2)

-- ### RateLimitService.canPerformAction (rate-limit.service.ts lines 104-134)

structure RateLimitStatus : Type where
  limit : Nat
  remaining : Nat
  resetAt : Nat
deriving DecidableEq, Repr

structure EndpointInfo : Type where
  endpoint : String
  version : Option String
deriving DecidableEq, Repr

inductive QueryOutcome : Type
  | ok (st : Option RateLimitStatus)
  | err (message : String)
deriving DecidableEq, Repr

-- The collaborators of one canPerformAction call: whether the platform is in
-- the platformRateLimits map (a missing platform throws, caught by the outer
-- try), the action-to-endpoint mapping, and the platform's rate-status
-- query, which may itself throw.
structure RateLimitEnv : Type where
  platformSupported : Bool
  endpointForAction : String → Option EndpointInfo
  queryStatus : EndpointInfo → QueryOutcome

/-- Modelled from the spec: the platform isRateLimited predicate
(twitter-rate-limit.ts is not in the source tree and the Twitter client
delegates to an external plugin); the spec makes it true exactly when the
reported window is exhausted and its reset time has not passed. -/
def isRateLimitedStatus (now : Nat) : Option RateLimitStatus → Bool
  | none => false
  | some st => st.remaining == 0 && decide (now < st.resetAt)

def canPerformAction (env : RateLimitEnv) (now : Nat) (action : String) : Bool :=
  if env.platformSupported = false then true
  else
    match env.endpointForAction action with
    | none => true
    | some ep =>
        match env.queryStatus ep with
        | QueryOutcome.err _ => true
        | QueryOutcome.ok st => if isRateLimitedStatus now st then false else true

-- ### AuthController.initializeAuth (the exposed link-initiation operation)

-- The AuthState record stored under ['auth', state] by
-- AuthService.initializeAuth.
structure AuthStateRec : Type where
  redirectUri : String
  codeVerifier : String
  state : String
  createdAt : Nat
  successUrl : String
  errorUrl : String
  signerId : String
deriving DecidableEq, Repr

structure AuthFlowState : Type where
  na : NAState
  authStates : Store String AuthStateRec

inductive FlowOutcome : Type
  | ok
  | unauthorized401
  | forbidden403
deriving DecidableEq, Repr

-- AuthController.initializeAuth: extractAndValidateNearAuth first validates
-- the signature, then throws ApiError UNAUTHORIZED when
-- getNearAuthorizationStatus is negative; the controller re-checks the
-- status and answers 403; only then is the OAuth auth-state record written.
-- Account linking itself happens later, in the OAuth callback, and is only
-- reachable through a stored auth-state record.
def initializeAuthFlow (st : AuthFlowState) (sigValid : Bool) (signerId : String)
    (oauthState : String) (stateRec : AuthStateRec) : FlowOutcome × AuthFlowState :=
  if sigValid = false then (FlowOutcome.unauthorized401, st)
  else if getNearAuthorizationStatus st.na signerId < 0 then (FlowOutcome.unauthorized401, st)
  else if getNearAuthorizationStatus st.na signerId < 0 then (FlowOutcome.forbidden403, st)
  else (FlowOutcome.ok, { st with authStates := st.authStates.set oauthState stateRec })

-- ### Concrete instances used by witnesses and counterexamples

def wTargetA : Target := { platform := "twitter", userId := "uA" }

def wTargetB : Target := { platform := "twitter", userId := "uB" }

def wTargetC : Target := { platform := "twitter", userId := "uC" }

-- A batch environment where every target is linked and admitted, and only
-- target B's processor throws a plain Error.
def wBatchEnv : BatchEnv String :=
  { hasAccess := fun _ => true
    canPerform := fun _ => true
    processor := fun t _ =>
      if t = wTargetB then ProcOutcome.throwError "boom" none
      else ProcOutcome.success ("posted for " ++ t.userId) }

-- A batch environment whose access checks all fail, driven by an actual
-- NearAuthService state with no token references (nothing is linked).
def wDeniedEnv : BatchEnv String :=
  { hasAccess := fun t => hasAccess emptyNAState "alice.near" t.platform t.userId
    canPerform := fun _ => true
    processor := fun t _ => ProcOutcome.success ("posted for " ++ t.userId) }

def wTrivialEnv : BatchEnv Unit :=
  { hasAccess := fun _ => true
    canPerform := fun _ => true
    processor := fun _ _ => ProcOutcome.success () }

-- A credential bundle whose expiresAt is the number 0 (an epoch timestamp
-- long in the past) and which has no refresh token.
def zeroExpiryToken : AuthToken :=
  { accessToken := "at0", refreshToken := "", expiresAt := some 0,
    scope := ["tweet.read"], tokenType := "oauth2" }

def zeroExpiryState : NAState :=
  { emptyNAState with
    tokenStorage := emptyNAState.tokenStorage.set ("u1", "twitter") zeroExpiryToken }

-- A positively expired bundle with no refresh token.
def expiredNoRefreshToken : AuthToken :=
  { accessToken := "at1", refreshToken := "", expiresAt := some 5,
    scope := ["tweet.read"], tokenType := "oauth2" }

def expiredNoRefreshState : NAState :=
  { emptyNAState with
    tokenStorage := emptyNAState.tokenStorage.set ("u1", "twitter") expiredNoRefreshToken }

-- An expired bundle that does carry a refresh token.
def expiredWithRefreshToken : AuthToken :=
  { accessToken := "at2", refreshToken := "rt2", expiresAt := some 5,
    scope := ["tweet.read"], tokenType := "oauth2" }

def expiredWithRefreshState : NAState :=
  { emptyNAState with
    tokenStorage := emptyNAState.tokenStorage.set ("u1", "twitter") expiredWithRefreshToken }

-- A refresh error that is not classified as invalid grant (an upstream 500).
def serverRefreshError : RefreshError :=
  { message := "internal server error", dataError := none, status := some 500, code := none }

-- A refresh error that is classified as invalid grant.
def invalidGrantRefreshError : RefreshError :=
  { message := "invalid grant", dataError := some "invalid_request", status := some 400,
    code := some "invalid_grant" }

def failingRefreshFn : String → RefreshResult := fun _ => RefreshResult.err serverRefreshError

def invalidGrantRefreshFn : String → RefreshResult :=
  fun _ => RefreshResult.err invalidGrantRefreshError

def okRefreshFn : String → RefreshResult := fun _ => RefreshResult.ok "newAT" "newRT" 7200

-- A rate-limit environment with one mapped action whose window is exhausted
-- and whose reset time is in the future.
def wRateEnv : RateLimitEnv :=
  { platformSupported := true
    endpointForAction := fun action =>
      if action = "post" then some { endpoint := "tweets", version := some "v2" } else none
    queryStatus := fun _ =>
      QueryOutcome.ok (some { limit := 100, remaining := 0, resetAt := 5000 }) }

def wAuthFlowState : AuthFlowState :=
  { na := emptyNAState, authStates := fun _ => none }

def wAuthStateRec : AuthStateRec :=
  { redirectUri := "https://proxy/auth/twitter/callback", codeVerifier := "cv",
    state := "st1", createdAt := 0, successUrl := "https://app", errorUrl := "https://app",
    signerId := "bob.near" }

-- ### Helper lemmas

theorem Store.get_set_self {κ α : Type} [DecidableEq κ] (s : Store κ α) (k : κ) (v : α) :
    (s.set k v) k = some v := by
  simp [Store.set]

theorem Store.get_set_other {κ α : Type} [DecidableEq κ] (s : Store κ α) (k k2 : κ) (v : α)
    (h : k2 ≠ k) : (s.set k v) k2 = s k2 := by
  simp [Store.set, h]

theorem Store.get_del_self {κ α : Type} [DecidableEq κ] (s : Store κ α) (k : κ) :
    (s.del k) k = none := by
  simp [Store.del]

-- The per-target loop records, in input order, exactly the outcome of each
-- enumerated target; no outcome is dropped and no outcome is reordered.
theorem processLoop_eq_enum {σ : Type} (env : BatchEnv σ) (ts : List Target) (i : Nat) :
    processLoop env i ts =
      ((ts.enumFrom i).filterMap (fun p => (processTarget env p.2 p.1).getLeft?),
        (ts.enumFrom i).filterMap (fun p => (processTarget env p.2 p.1).getRight?)) := by
  induction ts generalizing i with
  | nil => rfl
  | cons t ts ih =>
      simp only [processLoop, List.enumFrom, List.filterMap_cons, ih]
      cases h : processTarget env t i <;> simp [h]

-- A batch whose access checks all fail collects one UNAUTHORIZED error per
-- target and no success.
theorem processLoop_all_denied {σ : Type} (env : BatchEnv σ) (ts : List Target) (i : Nat)
    (h : ∀ t ∈ ts, env.hasAccess t = false) :
    processLoop env i ts = ([], ts.map accessErrorDetail) := by
  induction ts generalizing i with
  | nil => rfl
  | cons t ts ih =>
      have ht : env.hasAccess t = false := h t (by simp)
      have hts : ∀ t2 ∈ ts, env.hasAccess t2 = false := fun t2 ht2 => h t2 (by simp [ht2])
      simp only [processLoop, ih (i + 1) hts, processTarget, ht]
      simp

-- ### Claim theorems

/-- C1: processMultipleTargets processes the targets strictly in input order
(each target is judged at its own input index and every outcome is recorded),
one target's failure never stops later targets, and the success and error
lists each preserve the relative input order; in particular for a batch
[A, B, C] where B's processor throws and A and C succeed, the result is
successes = [A's result, C's result] and errors = [B's error]. -/
theorem processMultipleTargets_order_isolation {σ : Type} (env : BatchEnv σ)
    (targets : List Target) (A B C : Target) (sA sC : σ) (msg : String) (stack : Option String)
    (hA : processTarget env A 0 = Sum.inl sA)
    (hBacc : env.hasAccess B = true) (hBrate : env.canPerform B = true)
    (hBproc : env.processor B 1 = ProcOutcome.throwError msg stack)
    (hC : processTarget env C 2 = Sum.inl sC) :
    processMultipleTargets env targets =
      ((targets.enum.filterMap fun p => (processTarget env p.2 p.1).getLeft?),
        (targets.enum.filterMap fun p => (processTarget env p.2 p.1).getRight?))
    ∧ processMultipleTargets env [A, B, C] =
        ([sA, sC],
          [{ message := msg, errorCode := ApiErrorCode.PLATFORM_ERROR, recoverable := false,
             platform := B.platform, userId := B.userId, details := stack }]) := by
  constructor
  · exact processLoop_eq_enum env targets 0
  · have hB : processTarget env B 1 =
        Sum.inr (caughtErrorDetail B (ProcOutcome.throwError msg stack : ProcOutcome σ)) := by
      simp [processTarget, hBacc, hBrate, hBproc]
    simp [processMultipleTargets, processLoop, hA, hB, hC, caughtErrorDetail]

theorem processMultipleTargets_order_isolation_witness :
    processMultipleTargets wBatchEnv [wTargetA, wTargetB] =
      (([wTargetA, wTargetB].enum.filterMap
          fun p => (processTarget wBatchEnv p.2 p.1).getLeft?),
        ([wTargetA, wTargetB].enum.filterMap
          fun p => (processTarget wBatchEnv p.2 p.1).getRight?))
    ∧ processMultipleTargets wBatchEnv [wTargetA, wTargetB, wTargetC] =
        (["posted for uA", "posted for uC"],
          [{ message := "boom", errorCode := ApiErrorCode.PLATFORM_ERROR, recoverable := false,
             platform := wTargetB.platform, userId := wTargetB.userId, details := none }]) :=
  processMultipleTargets_order_isolation wBatchEnv [wTargetA, wTargetB]
    wTargetA wTargetB wTargetC "posted for uA" "posted for uC" "boom" none
    (by decide) (by decide) (by decide) (by decide) (by decide)

/-- C2: the aggregate response status is 200 when the error list is empty,
the status mapped from the FIRST error's code when there is no success, and
207 when both lists are non-empty; a batch of wholly unlinked targets yields
no success, one UNAUTHORIZED error per target, and the status mapped from
UNAUTHORIZED, namely 401. -/
theorem multiStatus_classification {σ σ2 : Type} (succ : List σ) (e : ErrorDetail)
    (errs : List ErrorDetail) (s0 : σ) (env : BatchEnv σ2) (targets : List Target)
    (hAll : ∀ t ∈ targets, env.hasAccess t = false) (hne : targets ≠ []) :
    multiStatusCode succ ([] : List ErrorDetail) = 200
    ∧ multiStatusCode ([] : List σ) (e :: errs) = getStatusCodeForError e.errorCode
    ∧ multiStatusCode (s0 :: succ) (e :: errs) = 207
    ∧ (processMultipleTargets env targets).1 = []
    ∧ (processMultipleTargets env targets).2.length = targets.length
    ∧ multiStatusCode (processMultipleTargets env targets).1
        (processMultipleTargets env targets).2 = getStatusCodeForError ApiErrorCode.UNAUTHORIZED
    ∧ getStatusCodeForError ApiErrorCode.UNAUTHORIZED = 401 := by
  have hrun : processMultipleTargets env targets = ([], targets.map accessErrorDetail) :=
    processLoop_all_denied env targets 0 hAll
  refine ⟨?_, rfl, rfl, ?_, ?_, ?_, rfl⟩
  · cases succ <;> rfl
  · simp [hrun]
  · simp [hrun]
  · match targets, hne with
    | t :: ts, _ => simp [hrun, multiStatusCode, accessErrorDetail]

theorem multiStatus_classification_witness :
    multiStatusCode (["ok"] : List String) ([] : List ErrorDetail) = 200
    ∧ multiStatusCode ([] : List String) [accessErrorDetail wTargetA]
        = getStatusCodeForError (accessErrorDetail wTargetA).errorCode
    ∧ multiStatusCode (["ok"] : List String) [accessErrorDetail wTargetA] = 207
    ∧ (processMultipleTargets wDeniedEnv [wTargetA, wTargetB]).1 = []
    ∧ (processMultipleTargets wDeniedEnv [wTargetA, wTargetB]).2.length
        = [wTargetA, wTargetB].length
    ∧ multiStatusCode (processMultipleTargets wDeniedEnv [wTargetA, wTargetB]).1
        (processMultipleTargets wDeniedEnv [wTargetA, wTargetB]).2
        = getStatusCodeForError ApiErrorCode.UNAUTHORIZED
    ∧ getStatusCodeForError ApiErrorCode.UNAUTHORIZED = 401 :=
  multiStatus_classification ["ok"] (accessErrorDetail wTargetA) [] "ok"
    wDeniedEnv [wTargetA, wTargetB] (by decide) (by decide)

/-- C10: an empty batch returns empty success and error lists without
consulting the access check, rate check or processor (the result is the same
for every environment), and the aggregate status built from two empty lists
is 200, overall success. -/
theorem empty_batch_success {σ : Type} :
    (∀ env : BatchEnv σ, processMultipleTargets env [] = ([], []))
    ∧ multiStatusCode ([] : List σ) ([] : List ErrorDetail) = 200 :=
  ⟨fun _ => rfl, rfl⟩

theorem empty_batch_success_witness :
    processMultipleTargets wTrivialEnv [] = ([], [])
    ∧ multiStatusCode ([] : List Unit) ([] : List ErrorDetail) = 200 :=
  ⟨(empty_batch_success).1 wTrivialEnv, (empty_batch_success).2⟩

-- deleteToken only touches the token references and the index, never the
-- credential store.
theorem deleteToken_tokenStorage (st : NAState) (a b c : String) :
    (deleteToken st a b c).tokenStorage = st.tokenStorage := by
  unfold deleteToken removeFromConnectedAccountsIndex
  split <;> rfl

theorem foldl_deleteToken_tokenStorage (accounts : List Account) (platform userId : String)
    (st : NAState) :
    (accounts.foldl
      (fun st2 account =>
        if account.platform == platform && account.userId == userId then
          deleteToken st2 account.userId platform userId
        else st2)
      st).tokenStorage = st.tokenStorage := by
  induction accounts generalizing st with
  | nil => rfl
  | cons a as ih =>
      simp only [List.foldl_cons]
      rw [ih]
      split <;> simp [deleteToken_tokenStorage]

theorem nasDeleteTokens_get (s : NAState) (userId platform : String) :
    (nasDeleteTokens s userId platform).tokenStorage (userId, platform) = none := by
  unfold nasDeleteTokens
  rw [foldl_deleteToken_tokenStorage]
  exact Store.get_del_self s.tokenStorage (userId, platform)

/-- C3 (amended): for every stored credential bundle whose expiresAt is a
nonzero timestamp that has passed and which has no refresh token, getTokens
deletes the stored bundle and fails with ApiError UNAUTHORIZED 401; the
expired bundle is not returned.  (The nonzero qualification is forced by the
JavaScript truthiness test on expiresAt.) -/
theorem getTokens_expired_no_refresh (s : NAState) (userId platform : String) (now : Nat)
    (t : AuthToken) (e : Nat)
    (hl : s.tokenStorage (userId, platform) = some t)
    (he : t.expiresAt = some e) (he0 : 0 < e) (hlt : e < now)
    (hr : t.refreshToken = "") :
    (nasGetTokens s userId platform now).1 =
      Except.error (AuthErr.apiError "Tokens expired and no refresh token available"
        ApiErrorCode.UNAUTHORIZED 401)
    ∧ (nasGetTokens s userId platform now).2.tokenStorage (userId, platform) = none := by
  have htruthy : expiresTruthyLt t now = true := by
    simp [expiresTruthyLt, he, he0, hlt]
  have hrun : nasGetTokens s userId platform now =
      (Except.error (AuthErr.apiError "Tokens expired and no refresh token available"
          ApiErrorCode.UNAUTHORIZED 401),
        nasDeleteTokens s userId platform) := by
    simp [nasGetTokens, hl, htruthy, hr]
  rw [hrun]
  exact ⟨rfl, nasDeleteTokens_get s userId platform⟩

theorem getTokens_expired_no_refresh_witness :
    (nasGetTokens expiredNoRefreshState "u1" "twitter" 100).1 =
      Except.error (AuthErr.apiError "Tokens expired and no refresh token available"
        ApiErrorCode.UNAUTHORIZED 401)
    ∧ (nasGetTokens expiredNoRefreshState "u1" "twitter" 100).2.tokenStorage ("u1", "twitter")
        = none :=
  getTokens_expired_no_refresh expiredNoRefreshState "u1" "twitter" 100
    expiredNoRefreshToken 5 (by decide) (by decide) (by decide) (by decide) (by decide)

/-- C3 counterexample: a stored bundle with expiresAt = 0 — an epoch
timestamp that has passed — and no refresh token is returned to the caller
as-is and kept in storage, because the JavaScript truthiness test
`tokens.expiresAt && tokens.expiresAt < Date.now()` treats the number 0 as
absent; so the claim that every such bundle is deleted and never served
fails at this input. -/
theorem getTokens_zero_expiry_served :
    zeroExpiryToken.expiresAt = some 0 ∧ (0 : Nat) < 1000
    ∧ zeroExpiryToken.refreshToken = ""
    ∧ (nasGetTokens zeroExpiryState "u1" "twitter" 1000).1 = Except.ok zeroExpiryToken
    ∧ (nasGetTokens zeroExpiryState "u1" "twitter" 1000).2.tokenStorage ("u1", "twitter")
        = some zeroExpiryToken := by
  refine ⟨rfl, by decide, rfl, rfl, rfl⟩

/-- C4 (amended): on a refresh attempt, a classified invalid-grant error
from the refresh callback deletes the stored bundle and the call fails; any
other callback error leaves the stored bundle untouched and the call fails;
in both cases the failure surfaces as the plain Error
'Failed to refresh token' thrown by the outer catch — unclassified, hence
treated downstream as non-recoverable PLATFORM_ERROR — rather than as a
ReauthRequired/Unauthorized classification or a propagation of the original
error. -/
theorem twitterRefreshToken_failure_behavior (s : NAState)
    (refreshFn : String → RefreshResult) (userId : String) (now : Nat)
    (t : AuthToken) (e : RefreshError)
    (hl : s.tokenStorage (userId, "twitter") = some t)
    (hr : t.refreshToken ≠ "")
    (hf : refreshFn t.refreshToken = RefreshResult.err e) :
    (twitterRefreshToken s refreshFn userId now).1 =
      Except.error (AuthErr.generic "Failed to refresh token")
    ∧ (isInvalidGrantError e = true →
        (twitterRefreshToken s refreshFn userId now).2.tokenStorage (userId, "twitter") = none)
    ∧ (isInvalidGrantError e = false → (twitterRefreshToken s refreshFn userId now).2 = s)
    ∧ classifyCaughtError (AuthErr.generic "Failed to refresh token")
        = (ApiErrorCode.PLATFORM_ERROR, false) := by
  have hrun : twitterRefreshToken s refreshFn userId now =
      (Except.error (AuthErr.generic "Failed to refresh token"),
        if isInvalidGrantError e then tsDeleteTokens s userId "twitter" else s) := by
    simp [twitterRefreshToken, hl, hf, hr]
    split <;> rfl
  refine ⟨by rw [hrun], ?_, ?_, rfl⟩
  · intro hig
    rw [hrun]
    simp only [hig, if_true]
    exact Store.get_del_self s.tokenStorage ("u1", "twitter") ▸
      Store.get_del_self s.tokenStorage (userId, "twitter")
  · intro hig
    rw [hrun]
    simp [hig]

theorem twitterRefreshToken_failure_behavior_witness :
    (twitterRefreshToken expiredWithRefreshState failingRefreshFn "u1" 100).1 =
      Except.error (AuthErr.generic "Failed to refresh token")
    ∧ (isInvalidGrantError serverRefreshError = true →
        (twitterRefreshToken expiredWithRefreshState failingRefreshFn "u1" 100).2.tokenStorage
          ("u1", "twitter") = none)
    ∧ (isInvalidGrantError serverRefreshError = false →
        (twitterRefreshToken expiredWithRefreshState failingRefreshFn "u1" 100).2 =
          expiredWithRefreshState)
    ∧ classifyCaughtError (AuthErr.generic "Failed to refresh token")
        = (ApiErrorCode.PLATFORM_ERROR, false) :=
  twitterRefreshToken_failure_behavior expiredWithRefreshState failingRefreshFn "u1" 100
    expiredWithRefreshToken serverRefreshError (by decide) (by decide) (by decide)

/-- C4 counterexample: with a stored bundle and a refresh callback throwing
a non-invalid-grant error (an upstream 500), the call does not propagate
that error as recoverable — it fails with the plain Error
'Failed to refresh token', classified downstream as non-recoverable
PLATFORM_ERROR; and with a classified invalid-grant error the call likewise
fails with the same unclassified generic error, whose classification is not
the claimed ReauthRequired/Unauthorized. -/
theorem twitterRefreshToken_classification_cex :
    isInvalidGrantError serverRefreshError = false
    ∧ (twitterRefreshToken expiredWithRefreshState failingRefreshFn "u1" 100).1
        = Except.error (AuthErr.generic "Failed to refresh token")
    ∧ (classifyCaughtError (AuthErr.generic "Failed to refresh token")).2 = false
    ∧ isInvalidGrantError invalidGrantRefreshError = true
    ∧ (twitterRefreshToken expiredWithRefreshState invalidGrantRefreshFn "u1" 100).1
        = Except.error (AuthErr.generic "Failed to refresh token")
    ∧ (classifyCaughtError (AuthErr.generic "Failed to refresh token")).1
        ≠ ApiErrorCode.UNAUTHORIZED := by
  refine ⟨rfl, rfl, rfl, rfl, rfl, by decide⟩

-- An expired-by-the-spec bundle is also one the truthiness test fires on,
-- unless its timestamp is 0.
theorem expiresTruthyLt_of_not_expired (t : AuthToken) (now : Nat)
    (h : bundleExpired t now = false) : expiresTruthyLt t now = false := by
  unfold bundleExpired at h
  unfold expiresTruthyLt
  cases he : t.expiresAt with
  | none => rfl
  | some e => simp [he] at h ⊢; omega

/-- C5: getValidCredential returns an unexpired bundle as-is (state
untouched); for an expired bundle carrying a refresh token, when the
platform refresh callback succeeds, it returns the new bundle and persists
it, so a subsequent read of the credential store also returns the new
bundle (the old bundle is overwritten wholesale). -/
theorem getValidCredential_refresh_persists (s : NAState) (userId : String) (now : Nat)
    (t : AuthToken) (refreshFn : String → RefreshResult)
    (hl : s.tokenStorage (userId, "twitter") = some t) :
    (bundleExpired t now = false →
      getValidCredential s refreshFn userId now = (Except.ok t, s))
    ∧ (∀ accessToken newRefreshToken expiresIn,
        bundleExpired t now = true → t.refreshToken ≠ "" →
        refreshFn t.refreshToken = RefreshResult.ok accessToken newRefreshToken expiresIn →
        (getValidCredential s refreshFn userId now).1 =
          Except.ok (mkRefreshedToken t accessToken newRefreshToken expiresIn now)
        ∧ (getValidCredential s refreshFn userId now).2.tokenStorage (userId, "twitter") =
            some (mkRefreshedToken t accessToken newRefreshToken expiresIn now)) := by
  constructor
  · intro hexp
    have htruthy := expiresTruthyLt_of_not_expired t now hexp
    simp [getValidCredential, nasGetTokens, hl, htruthy, hexp]
  · intro accessToken newRefreshToken expiresIn hexp hr hf
    have hget : nasGetTokens s userId "twitter" now = (Except.ok t, s) := by
      unfold nasGetTokens
      rw [hl]
      cases htruthy : expiresTruthyLt t now with
      | false => simp [htruthy]
      | true => simp [htruthy, hr]
    have hrt : twitterRefreshToken s refreshFn userId now =
        (Except.ok (mkRefreshedToken t accessToken newRefreshToken expiresIn now),
          tsSaveTokens s userId "twitter"
            (mkRefreshedToken t accessToken newRefreshToken expiresIn now)) := by
      simp [twitterRefreshToken, hl, hr, hf]
    have hrun : getValidCredential s refreshFn userId now =
        twitterRefreshToken s refreshFn userId now := by
      simp [getValidCredential, hget, hexp, hr]
    rw [hrun, hrt]
    exact ⟨rfl, Store.get_set_self s.tokenStorage (userId, "twitter") _⟩

theorem getValidCredential_refresh_persists_witness :
    (bundleExpired expiredWithRefreshToken 100 = false →
      getValidCredential expiredWithRefreshState okRefreshFn "u1" 100 =
        (Except.ok expiredWithRefreshToken, expiredWithRefreshState))
    ∧ (∀ accessToken newRefreshToken expiresIn,
        bundleExpired expiredWithRefreshToken 100 = true →
        expiredWithRefreshToken.refreshToken ≠ "" →
        okRefreshFn expiredWithRefreshToken.refreshToken =
          RefreshResult.ok accessToken newRefreshToken expiresIn →
        (getValidCredential expiredWithRefreshState okRefreshFn "u1" 100).1 =
          Except.ok (mkRefreshedToken expiredWithRefreshToken accessToken newRefreshToken
            expiresIn 100)
        ∧ (getValidCredential expiredWithRefreshState okRefreshFn "u1" 100).2.tokenStorage
            ("u1", "twitter") =
          some (mkRefreshedToken expiredWithRefreshToken accessToken newRefreshToken
            expiresIn 100)) :=
  getValidCredential_refresh_persists expiredWithRefreshState "u1" 100
    expiredWithRefreshToken okRefreshFn (by decide)

/-- C6: for a principal with no stored authorization record, isAuthorized is
false; it is true after authorize succeeds and false again after
unauthorize (round-trip); and on a failed storage read isAuthorized is
false (fails closed), never true. -/
theorem authorization_round_trip (s : NAState) (p timestamp msg : String)
    (h0 : s.authRecords p = none) :
    isNearAccountAuthorized s p = false
    ∧ isNearAccountAuthorized (authorizeNearAccount s p timestamp) p = true
    ∧ isNearAccountAuthorized
        (unauthorizeNearAccount (authorizeNearAccount s p timestamp) p) p = false
    ∧ isNearAccountAuthorizedRead (KvRead.err msg) = false := by
  have h1 : (authorizeNearAccount s p timestamp).authRecords p =
      some { authorized := true, timestamp := timestamp } :=
    Store.get_set_self s.authRecords p _
  refine ⟨?_, ?_, ?_, rfl⟩
  · simp [isNearAccountAuthorized, isNearAccountAuthorizedRead, h0]
  · simp [isNearAccountAuthorized, isNearAccountAuthorizedRead, h1]
  · have h2 : unauthorizeNearAccount (authorizeNearAccount s p timestamp) p =
        { authorizeNearAccount s p timestamp with
          authRecords := (authorizeNearAccount s p timestamp).authRecords.del p } := by
      unfold unauthorizeNearAccount
      rw [h1]
    rw [h2]
    simp [isNearAccountAuthorized, isNearAccountAuthorizedRead, Store.get_del_self]

theorem authorization_round_trip_witness :
    isNearAccountAuthorized emptyNAState "alice.near" = false
    ∧ isNearAccountAuthorized
        (authorizeNearAccount emptyNAState "alice.near" "2024-01-01") "alice.near" = true
    ∧ isNearAccountAuthorized
        (unauthorizeNearAccount
          (authorizeNearAccount emptyNAState "alice.near" "2024-01-01") "alice.near")
        "alice.near" = false
    ∧ isNearAccountAuthorizedRead (KvRead.err "kv unavailable") = false :=
  authorization_round_trip emptyNAState "alice.near" "2024-01-01" "kv unavailable" rfl

/-- C9: a never-authorized principal reaching the exposed link-initiation
operation is rejected with 401 before anything is written (the rejection is
raised inside extractAndValidateNearAuth): the whole state is unchanged, so
the principal's link list stays as it was — empty if it was empty — and no
token reference, index entry, or OAuth auth-state record is created. -/
theorem initializeAuth_rejects_unauthorized (st : AuthFlowState)
    (signerId oauthState : String) (stateRec : AuthStateRec)
    (h : isNearAccountAuthorized st.na signerId = false) :
    (initializeAuthFlow st true signerId oauthState stateRec).1 = FlowOutcome.unauthorized401
    ∧ (initializeAuthFlow st true signerId oauthState stateRec).2 = st
    ∧ (listConnectedAccounts st.na signerId = [] →
        listConnectedAccounts
          (initializeAuthFlow st true signerId oauthState stateRec).2.na signerId = []) := by
  have hstat : getNearAuthorizationStatus st.na signerId = -1 := by
    simp [getNearAuthorizationStatus, h]
  have hrun : initializeAuthFlow st true signerId oauthState stateRec =
      (FlowOutcome.unauthorized401, st) := by
    simp [initializeAuthFlow, hstat]
  rw [hrun]
  exact ⟨rfl, rfl, fun h2 => h2⟩

theorem initializeAuth_rejects_unauthorized_witness :
    (initializeAuthFlow wAuthFlowState true "bob.near" "st1" wAuthStateRec).1 =
      FlowOutcome.unauthorized401
    ∧ (initializeAuthFlow wAuthFlowState true "bob.near" "st1" wAuthStateRec).2 =
        wAuthFlowState
    ∧ (listConnectedAccounts wAuthFlowState.na "bob.near" = [] →
        listConnectedAccounts
          (initializeAuthFlow wAuthFlowState true "bob.near" "st1" wAuthStateRec).2.na
          "bob.near" = []) :=
  initializeAuth_rejects_unauthorized wAuthFlowState "bob.near" "st1" wAuthStateRec rfl

/-- C8: canPerformAction returns true when the action has no mapped
rate-limit endpoint (fails open) and true when any error occurs while
resolving the platform or querying the rate-limit status; it returns false
only when the mapped endpoint's reported window is exhausted and its reset
time has not passed. -/
theorem canPerformAction_fail_open (env : RateLimitEnv) (now : Nat) (action : String) :
    (env.endpointForAction action = none → canPerformAction env now action = true)
    ∧ (env.platformSupported = false → canPerformAction env now action = true)
    ∧ (∀ ep m, env.queryStatus ep = QueryOutcome.err m → env.endpointForAction action = some ep →
        canPerformAction env now action = true)
    ∧ (canPerformAction env now action = false →
        ∃ ep st, env.endpointForAction action = some ep
          ∧ env.queryStatus ep = QueryOutcome.ok (some st)
          ∧ st.remaining = 0 ∧ now < st.resetAt) := by
  refine ⟨?_, ?_, ?_, ?_⟩
  · intro hne
    unfold canPerformAction
    rw [hne]
    split <;> rfl
  · intro hps
    unfold canPerformAction
    rw [hps]
    rfl
  · intro ep m hq he
    unfold canPerformAction
    simp only [he, hq]
    split <;> rfl
  · intro hfalse
    unfold canPerformAction at hfalse
    by_cases hps : env.platformSupported = false
    · rw [if_pos hps] at hfalse
      cases hfalse
    · rw [if_neg hps] at hfalse
      cases he : env.endpointForAction action with
      | none => rw [he] at hfalse; cases hfalse
      | some ep =>
          simp only [he] at hfalse
          cases hq : env.queryStatus ep with
          | err m => simp only [hq] at hfalse; exact Bool.noConfusion hfalse
          | ok st =>
              simp only [hq] at hfalse
              cases hst : st with
              | none => rw [hst] at hfalse; simp [isRateLimitedStatus] at hfalse
              | some s0 =>
                  rw [hst] at hfalse
                  refine ⟨ep, s0, rfl, by rw [← hst, hq], ?_, ?_⟩
                  · by_cases hrem : s0.remaining = 0
                    · exact hrem
                    · simp [isRateLimitedStatus, hrem] at hfalse
                  · by_cases hreset : now < s0.resetAt
                    · exact hreset
                    · simp [isRateLimitedStatus, hreset] at hfalse

theorem canPerformAction_fail_open_witness :
    canPerformAction wRateEnv 100 "like" = true
    ∧ canPerformAction wRateEnv 100 "post" = false
    ∧ (∃ ep st, wRateEnv.endpointForAction "post" = some ep
        ∧ wRateEnv.queryStatus ep = QueryOutcome.ok (some st)
        ∧ st.remaining = 0 ∧ 100 < st.resetAt) :=
  ⟨(canPerformAction_fail_open wRateEnv 100 "like").1 (by decide),
    by decide,
    (canPerformAction_fail_open wRateEnv 100 "post").2.2.2 (by decide)⟩

-- ### No-duplicate-links development (C7)

theorem store_set_eval {κ α : Type} [DecidableEq κ] (st : Store κ α) (k k2 : κ) (v : α) :
    (st.set k v) k2 = if k2 = k then some v else st k2 := rfl

theorem listConnectedAccounts_eq_index (s : NAState) (signerId : String) :
    listConnectedAccounts s signerId = (s.index signerId).getD [] := by
  unfold listConnectedAccounts
  exact List.map_id _

-- When the pair is already present, linkAccount leaves the index untouched.
theorem linkAccount_index_pos (s : NAState) (signerId platform userId linkedAt : String)
    (hex : (((s.index signerId).getD []).any
      (fun acc => acc.platform == platform && acc.userId == userId)) = true) :
    (linkAccount s signerId platform userId linkedAt).index = s.index := by
  unfold linkAccount storeToken addToConnectedAccountsIndex
  rw [if_pos hex]

-- When the pair is absent, linkAccount appends it to the signer's index.
theorem linkAccount_index_neg (s : NAState) (signerId platform userId linkedAt : String)
    (hex : (((s.index signerId).getD []).any
      (fun acc => acc.platform == platform && acc.userId == userId)) = false) :
    (linkAccount s signerId platform userId linkedAt).index =
      s.index.set signerId ((s.index signerId).getD [] ++ [⟨platform, userId⟩]) := by
  unfold linkAccount storeToken addToConnectedAccountsIndex
  rw [if_neg (by rw [hex]; exact Bool.false_ne_true)]

theorem getD_index_nodup (s : NAState) (signerId : String) (h : NoDupLinks s) :
    ((s.index signerId).getD []).Nodup := by
  cases hidx : s.index signerId with
  | none => simp
  | some l0 => simpa using h signerId l0 hidx

theorem not_mem_of_any_eq_false (l : List Account) (platform userId : String)
    (hex : (l.any (fun acc => acc.platform == platform && acc.userId == userId)) = false) :
    (⟨platform, userId⟩ : Account) ∉ l := by
  intro hm
  rw [← Bool.not_eq_true, List.any_eq_true] at hex
  exact hex ⟨_, hm, by simp⟩

theorem noDupLinks_linkAccount (s : NAState) (signerId platform userId linkedAt : String)
    (h : NoDupLinks s) : NoDupLinks (linkAccount s signerId platform userId linkedAt) := by
  cases hex : (((s.index signerId).getD []).any
      (fun acc => acc.platform == platform && acc.userId == userId)) with
  | true =>
      intro sid l hl
      rw [linkAccount_index_pos s signerId platform userId linkedAt hex] at hl
      exact h sid l hl
  | false =>
      intro sid l hl
      rw [linkAccount_index_neg s signerId platform userId linkedAt hex,
        store_set_eval] at hl
      by_cases hsid : sid = signerId
      · rw [if_pos hsid] at hl
        cases hl
        have hnd := getD_index_nodup s signerId h
        have hmem := not_mem_of_any_eq_false _ platform userId hex
        simp [List.nodup_append, hnd, hmem]
      · rw [if_neg hsid] at hl
        exact h sid l hl

theorem removeFromIndex_index_cases (s : NAState) (signerId platform userId sid : String)
    (l : List Account)
    (hl : (removeFromConnectedAccountsIndex s signerId platform userId).index sid = some l) :
    s.index sid = some l
    ∨ ∃ accounts, s.index signerId = some accounts
        ∧ l = accounts.filter
            (fun acc => !(acc.platform == platform && acc.userId == userId)) := by
  unfold removeFromConnectedAccountsIndex at hl
  cases hidx : s.index signerId with
  | none => rw [hidx] at hl; exact Or.inl hl
  | some accounts =>
      rw [hidx] at hl
      simp only at hl
      rw [store_set_eval] at hl
      by_cases hsid : sid = signerId
      · rw [if_pos hsid] at hl
        cases hl
        exact Or.inr ⟨accounts, rfl, rfl⟩
      · rw [if_neg hsid] at hl
        exact Or.inl hl

theorem noDupLinks_unlinkAccount (s : NAState) (signerId platform userId : String)
    (h : NoDupLinks s) : NoDupLinks (unlinkAccount s signerId platform userId) := by
  intro sid l hl
  rcases removeFromIndex_index_cases _ signerId platform userId sid l hl with h1 | ⟨acc2, h2, h3⟩
  · exact h sid l h1
  · subst h3
    exact List.Nodup.filter _ (h signerId acc2 h2)

theorem noDupLinks_applyLinkOps (s : NAState) (ops : List LinkOp) (h : NoDupLinks s) :
    NoDupLinks (applyLinkOps s ops) := by
  induction ops generalizing s with
  | nil => exact h
  | cons op ops ih =>
      cases op with
      | link a b c d => exact ih _ (noDupLinks_linkAccount s a b c d h)
      | unlink a b c => exact ih _ (noDupLinks_unlinkAccount s a b c h)

-- After one linkAccount, the signer's index holds a Nodup list containing
-- the linked pair.
theorem linkAccount_index_mem (s : NAState) (signerId platform userId linkedAt : String)
    (h : NoDupLinks s) :
    ∃ l, (linkAccount s signerId platform userId linkedAt).index signerId = some l
      ∧ (⟨platform, userId⟩ : Account) ∈ l ∧ l.Nodup := by
  cases hex : (((s.index signerId).getD []).any
      (fun acc => acc.platform == platform && acc.userId == userId)) with
  | true =>
      rw [linkAccount_index_pos s signerId platform userId linkedAt hex]
      obtain ⟨a, ha, hpa⟩ := List.any_eq_true.mp hex
      obtain ⟨hp, hu⟩ : a.platform = platform ∧ a.userId = userId := by
        simpa using hpa
      have haeq : a = ⟨platform, userId⟩ := by
        cases a
        simp only [Account.mk.injEq]
        exact ⟨hp, hu⟩
      cases hidx : s.index signerId with
      | none => rw [hidx] at ha; simp at ha
      | some l0 =>
          rw [hidx] at ha
          simp only [Option.getD_some] at ha
          exact ⟨l0, rfl, haeq ▸ ha, h signerId l0 hidx⟩
  | false =>
      rw [linkAccount_index_neg s signerId platform userId linkedAt hex]
      refine ⟨(s.index signerId).getD [] ++ [⟨platform, userId⟩], ?_, by simp, ?_⟩
      · rw [store_set_eval, if_pos rfl]
      · have hnd := getD_index_nodup s signerId h
        have hmem := not_mem_of_any_eq_false _ platform userId hex
        simp [List.nodup_append, hnd, hmem]

-- A second identical linkAccount leaves the signer's index untouched.
theorem linkAccount_index_already (s : NAState) (signerId platform userId linkedAt : String)
    (l : List Account) (hl : s.index signerId = some l)
    (hmem : (⟨platform, userId⟩ : Account) ∈ l) :
    (linkAccount s signerId platform userId linkedAt).index = s.index := by
  apply linkAccount_index_pos
  rw [hl]
  simp only [Option.getD_some]
  exact List.any_eq_true.mpr ⟨_, hmem, by simp⟩

/-- C7: linkAccount is idempotent — two identical calls leave exactly one
matching (platform, userId) entry in the principal's listed links — and
after any sequence of link/unlink operations, starting from a state whose
link lists have no duplicate pairs, no principal's link list ever contains
two entries with the same (platform, userId) pair. -/
theorem link_idempotent_no_duplicates (s : NAState)
    (signerId platform userId linkedAt linkedAt2 : String) (h : NoDupLinks s) :
    List.count (⟨platform, userId⟩ : Account)
      (listConnectedAccounts
        (linkAccount (linkAccount s signerId platform userId linkedAt)
          signerId platform userId linkedAt2) signerId) = 1
    ∧ ∀ ops : List LinkOp, NoDupLinks (applyLinkOps s ops) := by
  refine ⟨?_, fun ops => noDupLinks_applyLinkOps s ops h⟩
  obtain ⟨l, hl, hmem, hnd⟩ := linkAccount_index_mem s signerId platform userId linkedAt h
  have h2 := linkAccount_index_already (linkAccount s signerId platform userId linkedAt)
    signerId platform userId linkedAt2 l hl hmem
  rw [listConnectedAccounts_eq_index, h2, hl]
  simp only [Option.getD_some]
  exact List.count_eq_one_of_mem hnd hmem

theorem link_idempotent_no_duplicates_witness :
    List.count (⟨"twitter", "u1"⟩ : Account)
      (listConnectedAccounts
        (linkAccount (linkAccount emptyNAState "alice.near" "twitter" "u1" "t1")
          "alice.near" "twitter" "u1" "t2") "alice.near") = 1
    ∧ ∀ ops : List LinkOp, NoDupLinks (applyLinkOps emptyNAState ops) :=
  link_idempotent_no_duplicates emptyNAState "alice.near" "twitter" "u1" "t1" "t2"
    (fun _ _ hl => Option.noConfusion hl)

end Crosspost
